import Mathlib

/-!
Verification of the `ohos-deviceinfo` device-information library.

The library wraps native OpenHarmony query functions that return either a
signed integer or a pointer to a static null-terminated C string.  We embed
the Rust code shallowly:

* a raw C string pointer becomes `Option (List Nat)`: `none` is the null
  pointer, `some bytes` is a non-null pointer whose pointee, read up to the
  null terminator, is the byte sequence `bytes` (each entry a byte value);
* `CStr::to_str` (UTF-8 validation, zero copy) becomes an `Except` value
  over the same bytes, guarded by an executable UTF-8 validity check that
  mirrors the UTF-8 well-formedness rules Rust enforces;
* the native signed 32-bit results become `Int` arguments constrained to
  the `i32` range in theorems;
* every accessor takes the value produced by its native query as an
  explicit argument, since the native layer is an external collaborator.
-/

/-- A byte is a UTF-8 continuation byte (`0x80 ..= 0xBF`). -/
def isUtf8Cont (b : Nat) : Bool := 0x80 ≤ b && b ≤ 0xBF

/-- Executable UTF-8 validity check on a byte sequence, following the
well-formedness rules enforced by Rust's `str::from_utf8`: ASCII bytes
stand alone; two-byte sequences have lead `0xC2 ..= 0xDF`; three-byte
sequences have lead `0xE0 ..= 0xEF` with the first continuation restricted
for `0xE0` (no overlongs) and `0xED` (no surrogates); four-byte sequences
have lead `0xF0 ..= 0xF4` with the first continuation restricted for
`0xF0` (no overlongs) and `0xF4` (code points above U+10FFFF). -/
def utf8Valid : List Nat → Bool
  | [] => true
  | b :: rest =>
    if b ≤ 0x7F then utf8Valid rest
    else if 0xC2 ≤ b && b ≤ 0xDF then
      match rest with
      | c1 :: rest2 => isUtf8Cont c1 && utf8Valid rest2
      | [] => false
    else if 0xE0 ≤ b && b ≤ 0xEF then
      match rest with
      | c1 :: c2 :: rest3 =>
        (if b = 0xE0 then (0xA0 ≤ c1 && c1 ≤ 0xBF)
         else if b = 0xED then (0x80 ≤ c1 && c1 ≤ 0x9F)
         else isUtf8Cont c1) && isUtf8Cont c2 && utf8Valid rest3
      | _ => false
    else if 0xF0 ≤ b && b ≤ 0xF4 then
      match rest with
      | c1 :: c2 :: c3 :: rest4 =>
        (if b = 0xF0 then (0x90 ≤ c1 && c1 ≤ 0xBF)
         else if b = 0xF4 then (0x80 ≤ c1 && c1 ≤ 0x8F)
         else isUtf8Cont c1) && isUtf8Cont c2 && isUtf8Cont c3 && utf8Valid rest4
      | _ => false
    else false

/-- The UTF-8 bytes of an ASCII Lean string literal, used to write the
byte sequences of the classifier's string table readably.  For ASCII
characters the code point equals the byte. -/
def asciiBytes (s : String) : List Nat := s.data.map Char.toNat

/-- Model of `CStr::to_str`: succeeds with the same bytes (Rust's
conversion is a zero-copy validation) when they are valid UTF-8, and
fails with a decode error otherwise. -/
def cstr_to_str (bytes : List Nat) : Except Unit (List Nat) :=
  if utf8Valid bytes then Except.ok bytes else Except.error ()

/-- Model of `convert_to_rust_str`: `none` for the null pointer; otherwise
decode the pointee's bytes with `cstr_to_str`, discard a decode error via
`.ok()` (modelled by `Except.toOption`), and filter out the empty string. -/
def convert_to_rust_str (static_c_str : Option (List Nat)) : Option (List Nat) :=
  match static_c_str with
  | none => none
  | some bytes => (cstr_to_str bytes).toOption.filter (fun s => !s.isEmpty)

/-- Model of the Rust `OhosDeviceType` enum.  `Other` carries the raw
device-type string (as its bytes); `Unknown` means the native query gave
no usable string. -/
inductive OhosDeviceType where
  | Phone
  | Wearable
  | LiteWearable
  | Tablet
  | Tv
  | Car
  | SmartVision
  | Other (s : List Nat)
  | Unknown
deriving DecidableEq

/-- Model of `get_device_type`: pass the native device-type pointer through
the string bridge; on absence return `Unknown`, otherwise match the decoded
string case-sensitively against the fixed table from the source. -/
def get_device_type (raw : Option (List Nat)) : OhosDeviceType :=
  match convert_to_rust_str raw with
  | none => OhosDeviceType.Unknown
  | some device_type =>
    if device_type = asciiBytes "phone" ∨ device_type = asciiBytes "default" then
      OhosDeviceType.Phone
    else if device_type = asciiBytes "wearable" then OhosDeviceType.Wearable
    else if device_type = asciiBytes "liteWearable" then OhosDeviceType.LiteWearable
    else if device_type = asciiBytes "tablet" then OhosDeviceType.Tablet
    else if device_type = asciiBytes "tv" then OhosDeviceType.Tv
    else if device_type = asciiBytes "car" then OhosDeviceType.Car
    else if device_type = asciiBytes "smartVision" then OhosDeviceType.SmartVision
    else OhosDeviceType.Other device_type

/-- The eight byte strings the classifier's table recognizes. -/
def recognizedKeys : List (List Nat) :=
  [asciiBytes "phone", asciiBytes "default", asciiBytes "wearable",
   asciiBytes "liteWearable", asciiBytes "tablet", asciiBytes "tv",
   asciiBytes "car", asciiBytes "smartVision"]

/-- Model of `get_device_manufacturer`: its native query's result through the bridge. -/
def get_device_manufacturer (raw : Option (List Nat)) : Option (List Nat) :=
  convert_to_rust_str raw

/-- Model of `get_brand`: its native query's result through the bridge. -/
def get_brand (raw : Option (List Nat)) : Option (List Nat) :=
  convert_to_rust_str raw

/-- Model of `get_market_name`: its native query's result through the bridge. -/
def get_market_name (raw : Option (List Nat)) : Option (List Nat) :=
  convert_to_rust_str raw

/-- Model of `get_product_series`: its native query's result through the bridge. -/
def get_product_series (raw : Option (List Nat)) : Option (List Nat) :=
  convert_to_rust_str raw

/-- Model of `get_product_model`: its native query's result through the bridge. -/
def get_product_model (raw : Option (List Nat)) : Option (List Nat) :=
  convert_to_rust_str raw

/-- Model of `get_software_model`: its native query's result through the bridge. -/
def get_software_model (raw : Option (List Nat)) : Option (List Nat) :=
  convert_to_rust_str raw

/-- Model of `get_hardware_model`: its native query's result through the bridge. -/
def get_hardware_model (raw : Option (List Nat)) : Option (List Nat) :=
  convert_to_rust_str raw

/-- Model of `get_bootloader_version`: its native query's result through the bridge. -/
def get_bootloader_version (raw : Option (List Nat)) : Option (List Nat) :=
  convert_to_rust_str raw

/-- Model of `get_abi_list`: its native query's result through the bridge. -/
def get_abi_list (raw : Option (List Nat)) : Option (List Nat) :=
  convert_to_rust_str raw

/-- Model of `get_security_patch_tag`: its native query's result through the bridge. -/
def get_security_patch_tag (raw : Option (List Nat)) : Option (List Nat) :=
  convert_to_rust_str raw

/-- Model of `get_display_version`: its native query's result through the bridge. -/
def get_display_version (raw : Option (List Nat)) : Option (List Nat) :=
  convert_to_rust_str raw

/-- Model of `get_incremental_version`: its native query's result through the bridge. -/
def get_incremental_version (raw : Option (List Nat)) : Option (List Nat) :=
  convert_to_rust_str raw

/-- Model of `get_os_release_type`: its native query's result through the bridge. -/
def get_os_release_type (raw : Option (List Nat)) : Option (List Nat) :=
  convert_to_rust_str raw

/-- Model of `get_os_full_name`: its native query's result through the bridge. -/
def get_os_full_name (raw : Option (List Nat)) : Option (List Nat) :=
  convert_to_rust_str raw

/-- Model of `get_sdk_api_version`: the native signed value converted with
`try_into::<u32>().unwrap_or_default()`, which yields the value itself when
non-negative and the default `0` when the conversion from a negative `i32`
fails. -/
def get_sdk_api_version (raw : Int) : Nat :=
  if raw < 0 then 0 else raw.toNat

/-- Model of `get_first_api_version`: same conversion as `get_sdk_api_version`. -/
def get_first_api_version (raw : Int) : Nat :=
  if raw < 0 then 0 else raw.toNat

/-- Model of `get_version_id`: its native query's result through the bridge. -/
def get_version_id (raw : Option (List Nat)) : Option (List Nat) :=
  convert_to_rust_str raw

/-- Model of `get_build_type`: its native query's result through the bridge. -/
def get_build_type (raw : Option (List Nat)) : Option (List Nat) :=
  convert_to_rust_str raw

/-- Model of `get_build_user`: its native query's result through the bridge. -/
def get_build_user (raw : Option (List Nat)) : Option (List Nat) :=
  convert_to_rust_str raw

/-- Model of `get_build_host`: its native query's result through the bridge. -/
def get_build_host (raw : Option (List Nat)) : Option (List Nat) :=
  convert_to_rust_str raw

/-- Model of `get_build_time`: its native query's result through the bridge. -/
def get_build_time (raw : Option (List Nat)) : Option (List Nat) :=
  convert_to_rust_str raw

/-- Model of `get_build_hash`: its native query's result through the bridge. -/
def get_build_hash (raw : Option (List Nat)) : Option (List Nat) :=
  convert_to_rust_str raw

namespace DistributionInfo

/-- Model of `DistributionInfo::name`: its native query's result through the bridge. -/
def name (raw : Option (List Nat)) : Option (List Nat) :=
  convert_to_rust_str raw

/-- Model of `DistributionInfo::version`: its native query's result through the bridge. -/
def version (raw : Option (List Nat)) : Option (List Nat) :=
  convert_to_rust_str raw

/-- Model of `DistributionInfo::api_version`: same conversion as `get_sdk_api_version`. -/
def api_version (raw : Int) : Nat :=
  if raw < 0 then 0 else raw.toNat

/-- Model of `DistributionInfo::get_distribution_os_release_type`: its native
query's result through the bridge. -/
def get_distribution_os_release_type (raw : Option (List Nat)) : Option (List Nat) :=
  convert_to_rust_str raw

end DistributionInfo

/-- The string accessors of the Query Surface: each one is its native
query's result passed through the string bridge. -/
def stringAccessors : List (Option (List Nat) → Option (List Nat)) :=
  [get_device_manufacturer, get_brand, get_market_name, get_product_series,
   get_product_model, get_software_model, get_hardware_model,
   get_bootloader_version, get_abi_list, get_security_patch_tag,
   get_display_version, get_incremental_version, get_os_release_type,
   get_os_full_name, get_version_id, get_build_type, get_build_user,
   get_build_host, get_build_time, get_build_hash, DistributionInfo.name,
   DistributionInfo.version, DistributionInfo.get_distribution_os_release_type]

/-- The fixed native state an accessor reads: the values the parameterless
native query functions return, fixed for the life of the process. -/
structure NativeEnv where
  deviceTypeRaw : Option (List Nat)
  manufactureRaw : Option (List Nat)
  sdkApiVersionRaw : Int

/-- A call of the device-type accessor as a state transition: it reads the
native state, classifies, and leaves the state unchanged (the source
functions have no side effects). -/
def callDeviceType (env : NativeEnv) : OhosDeviceType × NativeEnv :=
  (get_device_type env.deviceTypeRaw, env)

/-- A call of the manufacturer accessor as a state transition. -/
def callManufacturer (env : NativeEnv) : Option (List Nat) × NativeEnv :=
  (get_device_manufacturer env.manufactureRaw, env)

/-- A call of the SDK API version accessor as a state transition. -/
def callSdkApiVersion (env : NativeEnv) : Nat × NativeEnv :=
  (get_sdk_api_version env.sdkApiVersionRaw, env)

/-- The bridge on a non-null pointer: keep the bytes exactly when they are
valid UTF-8 and non-empty, drop them otherwise. -/
theorem convert_some_eq (bytes : List Nat) :
    convert_to_rust_str (some bytes) =
      if utf8Valid bytes = true ∧ bytes ≠ [] then some bytes else none := by
  by_cases hv : utf8Valid bytes = true <;>
    by_cases he : bytes = [] <;>
      simp [convert_to_rust_str, cstr_to_str, Except.toOption, Option.filter, hv, he] <;>
        decide

/-- The bridge returns a present value exactly for a non-null pointer to
valid, non-empty UTF-8, and then returns those very bytes. -/
theorem convert_some_iff (p : Option (List Nat)) (s : List Nat) :
    convert_to_rust_str p = some s ↔ p = some s ∧ utf8Valid s = true ∧ s ≠ [] := by
  cases p with
  | none => simp [convert_to_rust_str]
  | some bytes =>
    rw [convert_some_eq]
    constructor
    · intro h
      split at h
      · next hc => cases h; exact ⟨rfl, hc.1, hc.2⟩
      · cases h
    · rintro ⟨h1, h2, h3⟩
      cases h1
      simp [h2, h3]

/-- The bridge returns the absent value exactly for the null pointer,
undecodable bytes, or the empty string. -/
theorem convert_none_iff (p : Option (List Nat)) :
    convert_to_rust_str p = none ↔
      p = none ∨ ∃ s, p = some s ∧ (utf8Valid s = false ∨ s = []) := by
  cases p with
  | none => simp [convert_to_rust_str]
  | some bytes =>
    rw [convert_some_eq]
    constructor
    · intro h
      split at h
      · cases h
      · next hc =>
        refine Or.inr ⟨bytes, rfl, ?_⟩
        rcases Decidable.not_and_iff_or_not.mp hc with h1 | h2
        · exact Or.inl (Bool.not_eq_true _ ▸ Bool.of_not_eq_true h1)
        · exact Or.inr (Decidable.not_not.mp h2)
    · rintro (h | ⟨s, hs, hbad⟩)
      · cases h
      · cases hs
        rcases hbad with h1 | h2
        · simp [h1]
        · simp [h2]

/-- When the bridge yields no string, classification is `Unknown`. -/
theorem get_device_type_unknown_of_none (raw : Option (List Nat))
    (h : convert_to_rust_str raw = none) :
    get_device_type raw = OhosDeviceType.Unknown := by
  unfold get_device_type
  rw [h]

/-- A valid, non-empty device-type string outside the recognized table
classifies to `Other` with the very same bytes. -/
theorem get_device_type_other_of (s : List Nat) (hv : utf8Valid s = true)
    (hne : s ≠ []) (hk : s ∉ recognizedKeys) :
    get_device_type (some s) = OhosDeviceType.Other s := by
  have hc : convert_to_rust_str (some s) = some s :=
    (convert_some_iff _ _).mpr ⟨rfl, hv, hne⟩
  unfold get_device_type
  rw [hc]
  simp only [recognizedKeys, List.mem_cons, List.mem_singleton, not_or] at hk
  obtain ⟨h1, h2, h3, h4, h5, h6, h7, h8, -⟩ := hk
  simp [h1, h2, h3, h4, h5, h6, h7, h8]

/-- Unfolding membership in the classifier's recognized-key table. -/
theorem mem_recognizedKeys (d : List Nat) :
    d ∈ recognizedKeys ↔
      d = asciiBytes "phone" ∨ d = asciiBytes "default" ∨ d = asciiBytes "wearable" ∨
      d = asciiBytes "liteWearable" ∨ d = asciiBytes "tablet" ∨ d = asciiBytes "tv" ∨
      d = asciiBytes "car" ∨ d = asciiBytes "smartVision" := by
  simp [recognizedKeys]

/-- When the bridge yields a string, the classification is a named category
for a recognized key and `Other` with the same bytes for any other key. -/
theorem get_device_type_table_split (p : Option (List Nat)) (d : List Nat)
    (hc : convert_to_rust_str p = some d) :
    (d ∈ recognizedKeys ∧
      (get_device_type p = OhosDeviceType.Phone ∨ get_device_type p = OhosDeviceType.Wearable ∨
       get_device_type p = OhosDeviceType.LiteWearable ∨
       get_device_type p = OhosDeviceType.Tablet ∨ get_device_type p = OhosDeviceType.Tv ∨
       get_device_type p = OhosDeviceType.Car ∨
       get_device_type p = OhosDeviceType.SmartVision)) ∨
    (d ∉ recognizedKeys ∧ get_device_type p = OhosDeviceType.Other d) := by
  have hg : get_device_type p =
      (if d = asciiBytes "phone" ∨ d = asciiBytes "default" then OhosDeviceType.Phone
       else if d = asciiBytes "wearable" then OhosDeviceType.Wearable
       else if d = asciiBytes "liteWearable" then OhosDeviceType.LiteWearable
       else if d = asciiBytes "tablet" then OhosDeviceType.Tablet
       else if d = asciiBytes "tv" then OhosDeviceType.Tv
       else if d = asciiBytes "car" then OhosDeviceType.Car
       else if d = asciiBytes "smartVision" then OhosDeviceType.SmartVision
       else OhosDeviceType.Other d) := by
    unfold get_device_type
    rw [hc]
  by_cases e1 : d = asciiBytes "phone" ∨ d = asciiBytes "default"
  · rw [if_pos e1] at hg
    exact Or.inl ⟨(mem_recognizedKeys d).mpr (by tauto), Or.inl hg⟩
  rw [if_neg e1] at hg
  by_cases e2 : d = asciiBytes "wearable"
  · rw [if_pos e2] at hg
    exact Or.inl ⟨(mem_recognizedKeys d).mpr (by tauto), Or.inr (Or.inl hg)⟩
  rw [if_neg e2] at hg
  by_cases e3 : d = asciiBytes "liteWearable"
  · rw [if_pos e3] at hg
    exact Or.inl ⟨(mem_recognizedKeys d).mpr (by tauto), Or.inr (Or.inr (Or.inl hg))⟩
  rw [if_neg e3] at hg
  by_cases e4 : d = asciiBytes "tablet"
  · rw [if_pos e4] at hg
    exact Or.inl ⟨(mem_recognizedKeys d).mpr (by tauto),
      Or.inr (Or.inr (Or.inr (Or.inl hg)))⟩
  rw [if_neg e4] at hg
  by_cases e5 : d = asciiBytes "tv"
  · rw [if_pos e5] at hg
    exact Or.inl ⟨(mem_recognizedKeys d).mpr (by tauto),
      Or.inr (Or.inr (Or.inr (Or.inr (Or.inl hg))))⟩
  rw [if_neg e5] at hg
  by_cases e6 : d = asciiBytes "car"
  · rw [if_pos e6] at hg
    exact Or.inl ⟨(mem_recognizedKeys d).mpr (by tauto),
      Or.inr (Or.inr (Or.inr (Or.inr (Or.inr (Or.inl hg)))))⟩
  rw [if_neg e6] at hg
  by_cases e7 : d = asciiBytes "smartVision"
  · rw [if_pos e7] at hg
    exact Or.inl ⟨(mem_recognizedKeys d).mpr (by tauto),
      Or.inr (Or.inr (Or.inr (Or.inr (Or.inr (Or.inr hg)))))⟩
  rw [if_neg e7] at hg
  refine Or.inr ⟨?_, hg⟩
  rw [mem_recognizedKeys]
  tauto

/-- Inversion: an `Other s` classification can only arise from the bridge
yielding exactly `s`, with `s` valid, non-empty and unrecognized. -/
theorem get_device_type_other_inv (p : Option (List Nat)) (s : List Nat)
    (h : get_device_type p = OhosDeviceType.Other s) :
    convert_to_rust_str p = some s ∧ utf8Valid s = true ∧ s ≠ [] ∧ s ∉ recognizedKeys := by
  cases hc : convert_to_rust_str p with
  | none =>
    rw [get_device_type_unknown_of_none p hc] at h
    cases h
  | some d =>
    have hd := (convert_some_iff p d).mp hc
    rcases get_device_type_table_split p d hc with ⟨-, hv⟩ | ⟨hnk, he⟩
    · rcases hv with hv | hv | hv | hv | hv | hv | hv <;> (rw [hv] at h; cases h)
    · rw [he] at h
      cases h
      exact ⟨rfl, hd.2.1, hd.2.2, hnk⟩

/-- Classification yields `Unknown` exactly when the bridge yields nothing. -/
theorem get_device_type_unknown_iff (p : Option (List Nat)) :
    get_device_type p = OhosDeviceType.Unknown ↔ convert_to_rust_str p = none := by
  constructor
  · intro h
    cases hc : convert_to_rust_str p with
    | none => rfl
    | some d =>
      rcases get_device_type_table_split p d hc with ⟨-, hv⟩ | ⟨-, hv⟩
      · rcases hv with hv | hv | hv | hv | hv | hv | hv <;> (rw [hv] at h; cases h)
      · rw [hv] at h
        cases h
  · exact get_device_type_unknown_of_none p

/-- C1: the device-type classifier matches the decoded native string
case-sensitively against the fixed table: "phone" and "default" both map to
`Phone`, "wearable" to `Wearable`, "liteWearable" to `LiteWearable`,
"tablet" to `Tablet`, "tv" to `Tv`, "car" to `Car`, "smartVision" to
`SmartVision`; for every other spelling (including different casing such as
"Phone") the table does not apply: the result is `Other` or `Unknown`,
never a named category. -/
theorem claim_C1_device_type_table (s : List Nat) (h : s ∉ recognizedKeys) :
    (get_device_type (some (asciiBytes "phone")) = OhosDeviceType.Phone ∧
     get_device_type (some (asciiBytes "default")) = OhosDeviceType.Phone ∧
     get_device_type (some (asciiBytes "wearable")) = OhosDeviceType.Wearable ∧
     get_device_type (some (asciiBytes "liteWearable")) = OhosDeviceType.LiteWearable ∧
     get_device_type (some (asciiBytes "tablet")) = OhosDeviceType.Tablet ∧
     get_device_type (some (asciiBytes "tv")) = OhosDeviceType.Tv ∧
     get_device_type (some (asciiBytes "car")) = OhosDeviceType.Car ∧
     get_device_type (some (asciiBytes "smartVision")) = OhosDeviceType.SmartVision) ∧
    (get_device_type (some s) = OhosDeviceType.Other s ∨
     get_device_type (some s) = OhosDeviceType.Unknown) := by
  refine ⟨by decide, ?_⟩
  cases hv : utf8Valid s with
  | false =>
    right
    rw [get_device_type_unknown_iff, convert_none_iff]
    exact Or.inr ⟨s, rfl, Or.inl hv⟩
  | true =>
    by_cases he : s = []
    · right
      rw [get_device_type_unknown_iff, convert_none_iff]
      exact Or.inr ⟨s, rfl, Or.inr he⟩
    · exact Or.inl (get_device_type_other_of s hv he h)

/-- Witness for C1 at the unrecognized spelling "Phone". -/
theorem claim_C1_witness :
    asciiBytes "Phone" ∉ recognizedKeys ∧
      (get_device_type (some (asciiBytes "Phone")) = OhosDeviceType.Other (asciiBytes "Phone") ∨
       get_device_type (some (asciiBytes "Phone")) = OhosDeviceType.Unknown) :=
  ⟨by decide, (claim_C1_device_type_table (asciiBytes "Phone") (by decide)).2⟩

/-- C2: an absent native value (null pointer, undecodable bytes, or empty
string) classifies to `Unknown`, and every non-empty decoded string outside
the recognized table classifies to `Other` carrying exactly the original
bytes, with no normalization. -/
theorem claim_C2_absent_unknown_other_verbatim :
    get_device_type none = OhosDeviceType.Unknown ∧
    (∀ s, (utf8Valid s = false ∨ s = []) →
      get_device_type (some s) = OhosDeviceType.Unknown) ∧
    (∀ s, utf8Valid s = true → s ≠ [] → s ∉ recognizedKeys →
      get_device_type (some s) = OhosDeviceType.Other s) := by
  refine ⟨by decide, ?_, ?_⟩
  · intro s hs
    rw [get_device_type_unknown_iff, convert_none_iff]
    exact Or.inr ⟨s, rfl, hs⟩
  · intro s hv hne hk
    exact get_device_type_other_of s hv hne hk

/-- Witness for C2 at the unrecognized string "smartWatch". -/
theorem claim_C2_witness :
    (utf8Valid (asciiBytes "smartWatch") = true ∧ asciiBytes "smartWatch" ≠ [] ∧
      asciiBytes "smartWatch" ∉ recognizedKeys) ∧
    get_device_type (some (asciiBytes "smartWatch")) =
      OhosDeviceType.Other (asciiBytes "smartWatch") :=
  ⟨by decide,
   claim_C2_absent_unknown_other_verbatim.2.2 _ (by decide) (by decide) (by decide)⟩

/-- C3: the string bridge returns absent in exactly these cases: null
pointer, bytes that are not valid UTF-8, or the empty decoded string; all
three collapse to the same indistinguishable `none` and none is an error. -/
theorem claim_C3_bridge_absent_iff (p : Option (List Nat)) :
    convert_to_rust_str p = none ↔
      p = none ∨ ∃ s, p = some s ∧ (utf8Valid s = false ∨ s = []) :=
  convert_none_iff p

/-- C4: for every non-null pointer to valid, non-empty, null-terminated
bytes, the bridge returns exactly that text, unmodified. -/
theorem claim_C4_bridge_exact_text (s : List Nat) (hv : utf8Valid s = true)
    (hne : s ≠ []) : convert_to_rust_str (some s) = some s :=
  (convert_some_iff _ _).mpr ⟨rfl, hv, hne⟩

/-- Witness for C4 at the concrete string "HUAWEI". -/
theorem claim_C4_witness :
    (utf8Valid (asciiBytes "HUAWEI") = true ∧ asciiBytes "HUAWEI" ≠ []) ∧
      convert_to_rust_str (some (asciiBytes "HUAWEI")) = some (asciiBytes "HUAWEI") :=
  ⟨by decide, claim_C4_bridge_exact_text _ (by decide) (by decide)⟩

/-- C5: for every signed 32-bit value from a native numeric query, a
negative value is exposed as exactly 0 and a non-negative value is exposed
exactly; in particular -1 yields 0, 0 yields 0, and 42 yields 42, for the
SDK API version, the first API version, and the distribution API version. -/
theorem claim_C5_numeric_conversion (raw : Int) (_hlo : -(2 ^ 31) ≤ raw)
    (_hhi : raw < 2 ^ 31) :
    ((raw < 0 → get_sdk_api_version raw = 0 ∧ get_first_api_version raw = 0 ∧
        DistributionInfo.api_version raw = 0) ∧
     (0 ≤ raw → (get_sdk_api_version raw : Int) = raw ∧
        (get_first_api_version raw : Int) = raw ∧
        (DistributionInfo.api_version raw : Int) = raw)) ∧
    get_sdk_api_version (-1) = 0 ∧ get_sdk_api_version 0 = 0 ∧
    get_sdk_api_version 42 = 42 := by
  refine ⟨⟨?_, ?_⟩, by decide, by decide, by decide⟩
  · intro hneg
    simp [get_sdk_api_version, get_first_api_version, DistributionInfo.api_version, hneg]
  · intro hpos
    have hnn : ¬ raw < 0 := not_lt.mpr hpos
    simp [get_sdk_api_version, get_first_api_version, DistributionInfo.api_version, hnn,
      Int.toNat_of_nonneg hpos]

/-- Witness for C5 at the in-range negative input -5. -/
theorem claim_C5_witness :
    (-(2 ^ 31) ≤ (-5 : Int) ∧ (-5 : Int) < 2 ^ 31 ∧ (-5 : Int) < 0) ∧
      get_sdk_api_version (-5) = 0 :=
  ⟨by decide, ((claim_C5_numeric_conversion (-5) (by decide) (by decide)).1.1 (by decide)).1⟩

/-- C6: no accessor of the Query Surface ever returns a present text value
that is empty: every string any of the string accessors returns, and the
payload of every `Other` classification, is non-empty. -/
theorem claim_C6_no_empty_text (p : Option (List Nat)) (s : List Nat)
    (h : (∃ f ∈ stringAccessors, f p = some s) ∨
      get_device_type p = OhosDeviceType.Other s) : s ≠ [] := by
  rcases h with ⟨f, hf, hfp⟩ | hother
  · have hconv : convert_to_rust_str p = some s := by
      simp only [stringAccessors, List.mem_cons, List.not_mem_nil, or_false] at hf
      rcases hf with rfl | rfl | rfl | rfl | rfl | rfl | rfl | rfl | rfl | rfl | rfl | rfl |
        rfl | rfl | rfl | rfl | rfl | rfl | rfl | rfl | rfl | rfl | rfl <;> exact hfp
    exact ((convert_some_iff p s).mp hconv).2.2
  · exact (get_device_type_other_inv p s hother).2.2.1

/-- Witness for C6 with the manufacturer accessor at the one-byte string
"x". -/
theorem claim_C6_witness :
    ((∃ f ∈ stringAccessors, f (some [120]) = some [120]) ∨
      get_device_type (some [120]) = OhosDeviceType.Other [120]) ∧
      [120] ≠ ([] : List Nat) :=
  ⟨Or.inl ⟨get_device_manufacturer, List.mem_cons_self _ _, by decide⟩,
   claim_C6_no_empty_text (some [120]) [120]
     (Or.inl ⟨get_device_manufacturer, List.mem_cons_self _ _, by decide⟩)⟩

/-- C7: every accessor is total: for every possible native result the
bridge yields absent or a non-empty string, a decode error is swallowed
into absent rather than propagated, the classifier yields one of its nine
representable outcomes, and a negative native version number yields the
default 0: nothing raises. -/
theorem claim_C7_totality (p : Option (List Nat)) (raw : Int) :
    (convert_to_rust_str p = none ∨ ∃ s, s ≠ [] ∧ convert_to_rust_str p = some s) ∧
    (∀ bytes, cstr_to_str bytes = Except.error () →
      convert_to_rust_str (some bytes) = none) ∧
    (get_device_type p = OhosDeviceType.Unknown ∨ get_device_type p = OhosDeviceType.Phone ∨
     get_device_type p = OhosDeviceType.Wearable ∨
     get_device_type p = OhosDeviceType.LiteWearable ∨
     get_device_type p = OhosDeviceType.Tablet ∨ get_device_type p = OhosDeviceType.Tv ∨
     get_device_type p = OhosDeviceType.Car ∨
     get_device_type p = OhosDeviceType.SmartVision ∨
     ∃ s, get_device_type p = OhosDeviceType.Other s) ∧
    (raw < 0 → get_sdk_api_version raw = 0 ∧ get_first_api_version raw = 0 ∧
      DistributionInfo.api_version raw = 0) := by
  refine ⟨?_, ?_, ?_, ?_⟩
  · cases hc : convert_to_rust_str p with
    | none => exact Or.inl rfl
    | some s => exact Or.inr ⟨s, ((convert_some_iff p s).mp hc).2.2, rfl⟩
  · intro bytes hb
    have hv : utf8Valid bytes = false := by
      cases hvb : utf8Valid bytes with
      | false => rfl
      | true =>
        unfold cstr_to_str at hb
        rw [hvb] at hb
        simp at hb
    rw [convert_none_iff]
    exact Or.inr ⟨bytes, rfl, Or.inl hv⟩
  · cases h : get_device_type p <;> simp
  · intro hneg
    simp [get_sdk_api_version, get_first_api_version, DistributionInfo.api_version, hneg]

/-- Witness for C7 at the undecodable byte 255 and the negative version
-5. -/
theorem claim_C7_witness :
    (cstr_to_str [255] = Except.error () ∧ convert_to_rust_str (some [255]) = none) ∧
    ((-5 : Int) < 0 ∧ get_sdk_api_version (-5) = 0) :=
  ⟨⟨rfl, (claim_C7_totality (some [255]) (-5)).2.1 [255] rfl⟩,
   ⟨by decide, ((claim_C7_totality (some [255]) (-5)).2.2.2 (by decide)).1⟩⟩

/-- C8: with the native query results fixed for the life of the process,
each accessor call leaves the native state unchanged and a repeated call
returns the identical result. -/
theorem claim_C8_idempotent_deterministic (env : NativeEnv) :
    (callDeviceType env).2 = env ∧ (callManufacturer env).2 = env ∧
    (callSdkApiVersion env).2 = env ∧
    (callDeviceType ((callDeviceType env).2)).1 = (callDeviceType env).1 ∧
    (callManufacturer ((callManufacturer env).2)).1 = (callManufacturer env).1 ∧
    (callSdkApiVersion ((callSdkApiVersion env).2)).1 = (callSdkApiVersion env).1 :=
  ⟨rfl, rfl, rfl, rfl, rfl, rfl⟩

/-- C9: whenever the classifier returns `Other s`, the payload `s` is
non-empty and is none of the eight recognized table strings: `Other` never
shadows a recognized category and never carries an empty payload. -/
theorem claim_C9_other_payload_invariant (p : Option (List Nat)) (s : List Nat)
    (h : get_device_type p = OhosDeviceType.Other s) :
    s ≠ [] ∧ s ∉ recognizedKeys :=
  ⟨(get_device_type_other_inv p s h).2.2.1, (get_device_type_other_inv p s h).2.2.2⟩

/-- Witness for C9 at the unrecognized string "watch". -/
theorem claim_C9_witness :
    get_device_type (some (asciiBytes "watch")) =
        OhosDeviceType.Other (asciiBytes "watch") ∧
      (asciiBytes "watch" ≠ [] ∧ asciiBytes "watch" ∉ recognizedKeys) :=
  ⟨by decide, claim_C9_other_payload_invariant (some (asciiBytes "watch")) (asciiBytes "watch") (by decide)⟩

/-- C10: the classifier returns `Unknown` if and only if the string bridge
applied to the native device-type pointer yields absent; a valid non-empty
string never classifies to `Unknown`. -/
theorem claim_C10_unknown_iff_absent (p : Option (List Nat)) :
    get_device_type p = OhosDeviceType.Unknown ↔ convert_to_rust_str p = none :=
  get_device_type_unknown_iff p
